import Mathlib

/-!
Verification of the XRPayroll Payment Settlement Orchestrator.

Shallow embedding of the payment-settlement routes of the repository:

* `POST /api/testnet/payments/send` (src/routes/testnetRoutes.js) — the
  Preflight Validator, Transaction Submitter and Settlement Ledger writes;
* `POST /api/testnet/trustlines/create` — the Trust Line Manager's
  `establishTrust`;
* the `transactions` table of database.js — the Settlement Ledger store.

Modelling conventions:

* JavaScript numbers (`parseFloat` of decimal amount strings) are modelled
  as rationals `ℚ`; the routes only compare and copy them.
* The XRPL node is modelled as a total map from an account address to the
  list of trust lines reported by the `account_lines` command; only the
  fields the code reads (`account`, `currency`, `balance`) are kept.
* `client.submitAndWait` is an external effect; its outcome for the one
  submission a route performs is passed in as a `SubmitResult`: either a
  validated result carrying `meta.TransactionResult` and the signed
  transaction's hash, or a thrown error (no validated result before the
  `LastLedgerSequence` expiry, timeout, disconnection) carrying the error
  message.
* The awaited steps of the payments route that precede `submitAndWait`
  (`connect()`, the destination and payer `account_lines` requests,
  `autofill`/`sign`) can also throw in the source, and every such throw
  reaches the same catch block that inserts a Failure row and answers 500.
  `sendPaymentFull` models the route with each of those steps fallible
  (`LedgerOps`); `sendPayment` is its specialization in which every
  pre-submission step succeeds (`sendPaymentFull_ok_eq`).
* The route's INSERT into the `transactions` table is modelled by
  `insertTransaction`, which combines the
  `(SELECT id FROM employees WHERE wallet_address = ?)` subquery with the
  schema's `employee_id INTEGER NOT NULL` constraint: when no employee row
  matches, the subquery yields NULL, the INSERT fails, and — because the
  route's callback only logs the error — the table is left unchanged.
* The fields of the transaction bodies themselves (fees, sequence numbers,
  `LastLedgerSequence`, the TrustSet `LimitAmount.value`) are autofilled
  and signed opaquely and never branch the control flow, so they are not
  modelled.
-/

/-- One entry of an `account_lines` response, restricted to the fields the
routes read: `line.account` (the counterparty), `line.currency`, and
`line.balance` (parsed with `parseFloat`). -/
structure TrustLineData where
  account : String
  currency : String
  balance : ℚ
deriving DecidableEq, Repr

/-- The XRPL node as seen through `account_lines`: each address maps to the
list of trust lines the ledger reports for it. -/
def Ledger : Type := String → List TrustLineData

/-- Embeds `trustResp.result.lines.some(line => line.account === issuer && line.currency === currency)`
— the destination-trust test of POST /payments/send, also the predicate of
`ensureWalletWithTrustline`'s post-creation verification. -/
def hasTrust (lines : List TrustLineData) (issuer currency : String) : Bool :=
  lines.any (fun line => line.account == issuer && line.currency == currency)

/-- Embeds `payerLines.result.lines.find(line => line.account === issuer && line.currency === currency)`
— the payer's trust line to the issuer, if any. -/
def findIssuerLine (lines : List TrustLineData) (issuer currency : String) :
    Option TrustLineData :=
  lines.find? (fun line => line.account == issuer && line.currency == currency)

/-- One row of the `employees` table, restricted to the columns the
payments route touches (`id`, `wallet_address`). -/
structure Employee where
  id : Nat
  wallet_address : String
deriving DecidableEq, Repr

/-- One row of the `transactions` table of database.js:
`employee_id INTEGER NOT NULL`, `amount`, `wallet_address`,
`status TEXT NOT NULL CHECK status IN (Success, Failure)`,
`tx_id TEXT UNIQUE` (nullable). -/
structure TxRecord where
  employee_id : Nat
  amount : ℚ
  wallet_address : String
  status : String
  tx_id : Option String
deriving DecidableEq, Repr

/-- Embeds the schema's CHECK constraint on `transactions.status`:
CHECK status IN (Success, Failure). -/
def statusAllowed (s : String) : Bool :=
  s == "Success" || s == "Failure"

/-- The SQLite database: the `employees` and `transactions` tables. -/
structure DbState where
  employees : List Employee
  transactions : List TxRecord
deriving DecidableEq, Repr

/-- Embeds `(SELECT id FROM employees WHERE wallet_address = ?)` — the
subquery of both INSERTs of POST /payments/send; `none` models the subquery
evaluating to SQL NULL when no employee has the given wallet address. -/
def findEmployeeId (db : DbState) (addr : String) : Option Nat :=
  (db.employees.find? (fun e => e.wallet_address == addr)).map (·.id)

/-- Embeds the route running `INSERT INTO transactions (employee_id, amount, wallet_address, status, tx_id, date) VALUES ((SELECT id FROM employees WHERE wallet_address = ?), ...)`.
When the subquery yields NULL the INSERT violates
`employee_id INTEGER NOT NULL` and fails; the route's callback only logs
that error, so the table is unchanged. Otherwise the row is appended. -/
def insertTransaction (db : DbState) (addr : String) (amount : ℚ)
    (status : String) (txId : Option String) : DbState :=
  match findEmployeeId db addr with
  | some eid =>
      { db with transactions :=
          db.transactions ++ [⟨eid, amount, addr, status, txId⟩] }
  | none => db

/-- Outcome of the single `client.submitAndWait(signed.tx_blob)` call a
route performs: a validated result carrying `meta.TransactionResult` and
the signed transaction's hash (`signed.hash`), or a thrown error (no
validated result before the `LastLedgerSequence` expiry, timeout,
disconnection) carrying `error.message`. -/
inductive SubmitResult where
  | validated (txResult : String) (hash : String)
  | thrown (errMsg : String)
deriving DecidableEq, Repr

/-- Configuration and wallet selection of POST /payments/send (lines
1051–1078): the parsed `MAX_PAYMENT_PER_TX` cap (`parseFloat` of `MAX_PAYMENT_PER_TX` defaulting to `0`, so
`0` means no cap is configured), the configured currency code
(`getXRPLCurrency()`), the selected issuer wallet's address, and the
effective payout wallet's address
(`getEffectivePayoutWallet() || xrplClient.issuerWallet`, hence equal to
`issuerAddress` when no payout wallet is configured). -/
structure SendConfig where
  maxPaymentPerTx : ℚ
  currency : String
  issuerAddress : String
  payoutAddress : String
deriving DecidableEq, Repr

/-- Embeds `payoutWallet.classicAddress === issuerWallet.classicAddress ? `issuer wallet (minting)` : `payout wallet``. -/
def payerLabel (cfg : SendConfig) : String :=
  if cfg.payoutAddress = cfg.issuerAddress then "issuer wallet (minting)"
  else "payout wallet"

/-- Result of one POST /payments/send request: the HTTP status and message
of the JSON response, whether `submitAndWait` was invoked (a transaction
was built, signed and submitted), and the database afterwards. -/
structure SendOutcome where
  status : Nat
  message : String
  submitted : Bool
  db : DbState
deriving DecidableEq, Repr

/-- Message `Employee wallet address and amount are required.` -/
def missingFieldsMsg : String :=
  "Employee wallet address and amount are required."

/-- Message `` `Requested amount exceeds max per transaction limit (${maxPerTx}).` ``. -/
def capMsg (maxPerTx : ℚ) : String :=
  "Requested amount exceeds max per transaction limit (" ++ toString maxPerTx ++ ")."

/-- Message `Destination wallet has no trust line to the issuer. Create trust line before sending.` -/
def noDestinationTrustMsg : String :=
  "Destination wallet has no trust line to the issuer. Create trust line before sending."

/-- Message `` `Payer ${payerLabel} has no trustline to issuer ${issuerAddress}.` ``. -/
def payerNoTrustMsg (cfg : SendConfig) : String :=
  "Payer " ++ payerLabel cfg ++ " has no trustline to issuer " ++ cfg.issuerAddress ++ "."

/-- Message `` `Insufficient ${currency} balance in ${payerLabel}. Current balance: ${payerBalance}.` ``. -/
def insufficientBalanceMsg (cfg : SendConfig) (payerBalance : ℚ) : String :=
  "Insufficient " ++ cfg.currency ++ " balance in " ++ payerLabel cfg ++
    ". Current balance: " ++ toString payerBalance ++ "."

/-- Message `` `Payment of ${amount} RLUSD sent successfully to ${employeeWallet}.` ``. -/
def successMsg (amount : ℚ) (employeeWallet : String) : String :=
  "Payment of " ++ toString amount ++ " RLUSD sent successfully to " ++
    employeeWallet ++ "."

/-- Message `` `Transaction failed: ${result.result.meta.TransactionResult}` `` —
the Error thrown on a validated non-`tesSUCCESS` outcome; its message
becomes the 500 response's message in the catch block. -/
def txFailedMsg (txResult : String) : String :=
  "Transaction failed: " ++ txResult

/-- Embeds lines 1093–1109 of POST /payments/send: when the payout wallet
is not the issuer itself, it must hold a trust line to the issuer
(`payerLines.find(…)`) with `parseFloat(line.balance)` at least the
requested amount; `some o` is the early 400 rejection, `none` means the
check passed (or was skipped because the issuer itself pays, which mints). -/
def payerRejection (cfg : SendConfig) (ledger : Ledger) (db : DbState)
    (amount : ℚ) : Option SendOutcome :=
  if cfg.payoutAddress = cfg.issuerAddress then none
  else
    match findIssuerLine (ledger cfg.payoutAddress) cfg.issuerAddress cfg.currency with
    | none => some ⟨400, payerNoTrustMsg cfg, false, db⟩
    | some line =>
        if line.balance < amount then
          some ⟨400, insufficientBalanceMsg cfg line.balance, false, db⟩
        else none

/-- Embeds lines 1111–1193 of POST /payments/send: build, autofill, sign
and submit the Payment, then classify. `tesSUCCESS` inserts a Success row
with `tx_id = signed.hash` and answers 200; a validated non-success result
throws `Transaction failed: ${code}`, and any throw is caught by the catch
block, which inserts a Failure row with `tx_id = NULL` and answers 500 with
`error.message`. -/
def submitPhase (sr : SubmitResult) (db : DbState)
    (employeeWallet : String) (amount : ℚ) : SendOutcome :=
  match sr with
  | .validated txResult hash =>
      if txResult = "tesSUCCESS" then
        ⟨200, successMsg amount employeeWallet, true,
          insertTransaction db employeeWallet amount "Success" (some hash)⟩
      else
        ⟨500, txFailedMsg txResult, true,
          insertTransaction db employeeWallet amount "Failure" none⟩
  | .thrown errMsg =>
      ⟨500, errMsg, true,
        insertTransaction db employeeWallet amount "Failure" none⟩

/-- Embeds the try block of POST /payments/send (lines 1080–1193): the
destination-trust preflight (`account_lines` on the destination, reject 400
`noDestinationTrustMsg` when no line to the issuer in the configured
currency exists), then the payer trust/balance preflight, then submission
and recording. -/
def sendPaymentChecked (cfg : SendConfig) (ledger : Ledger)
    (sr : SubmitResult) (db : DbState) (employeeWallet : String)
    (amount : ℚ) : SendOutcome :=
  if hasTrust (ledger employeeWallet) cfg.issuerAddress cfg.currency = true then
    match payerRejection cfg ledger db amount with
    | some o => o
    | none => submitPhase sr db employeeWallet amount
  else
    ⟨400, noDestinationTrustMsg, false, db⟩

/-- Embeds POST /api/testnet/payments/send (testnetRoutes.js lines
1044–1194). First `if (!employeeWallet || !amount)` → 400 missing fields (a
JSON number `0` amount is falsy); then the `MAX_PAYMENT_PER_TX` cap check
(`maxPerTx > 0 && parseFloat(amount) > maxPerTx` → 400); then the try
block: destination-trust preflight, payer preflight, submit, record. -/
def sendPayment (cfg : SendConfig) (ledger : Ledger) (sr : SubmitResult)
    (db : DbState) (employeeWallet : String) (amount : ℚ) : SendOutcome :=
  if employeeWallet = "" ∨ amount = 0 then
    ⟨400, missingFieldsMsg, false, db⟩
  else if cfg.maxPaymentPerTx > 0 ∧ amount > cfg.maxPaymentPerTx then
    ⟨400, capMsg cfg.maxPaymentPerTx, false, db⟩
  else
    sendPaymentChecked cfg ledger sr db employeeWallet amount

/-- Result of one POST /trustlines/create request: HTTP status, message,
and whether a TrustSet transaction was signed and submitted. -/
structure TrustCreateOutcome where
  status : Nat
  message : String
  submitted : Bool
deriving DecidableEq, Repr

/-- Embeds POST /api/testnet/trustlines/create (testnetRoutes.js lines
980–1034): after the required-fields check it unconditionally builds a
TrustSet from the employee wallet to the issuer, autofills, signs and
submits it — the route performs no existence check against the ledger's
current trust lines before submitting (the `trustLimit` request field only
enters the opaque transaction body). `tesSUCCESS` answers 200; any other
validated result throws, and the catch answers 500
`Failed to create trust line.`, as it does for any thrown error. -/
def createTrustline (employeeWalletSeed issuerAddress : String)
    (sr : SubmitResult) : TrustCreateOutcome :=
  if employeeWalletSeed = "" ∨ issuerAddress = "" then
    ⟨400, "Employee wallet seed and issuer address are required.", false⟩
  else
    match sr with
    | .validated txResult _ =>
        if txResult = "tesSUCCESS" then
          ⟨200, "Trust line created successfully.", true⟩
        else
          ⟨500, "Failed to create trust line.", true⟩
    | .thrown _ => ⟨500, "Failed to create trust line.", true⟩

/-- Number of TrustSet transactions one POST /trustlines/create call
submits to the ledger. -/
def trustSubmissions (o : TrustCreateOutcome) : Nat :=
  if o.submitted then 1 else 0

/-- Results of every awaited step of the try block of POST /payments/send
that precedes `submitAndWait`, each of which can throw in the source:
`connect()` (`some errMsg` models a throw), the destination `account_lines`
request (an `Except.error` models a throw, e.g. `actNotFound` for an
unactivated destination account), the payer `account_lines` request
(consulted only when a distinct payout wallet pays), and the
`autofill`/`sign` pair; plus the `submitAndWait` outcome itself. -/
structure LedgerOps where
  connect : Option String
  destLines : Except String (List TrustLineData)
  payerLines : Except String (List TrustLineData)
  autofill : Option String
  submitRes : SubmitResult
deriving Repr

/-- The catch block of POST /payments/send reached from a throw before
`submitAndWait` was invoked: it inserts a Failure row (null hash) via the
employees subquery and answers 500 with `error.message`; nothing was
submitted. -/
def preSubmitCatch (db : DbState) (w : String) (a : ℚ)
    (errMsg : String) : SendOutcome :=
  ⟨500, errMsg, false, insertTransaction db w a "Failure" none⟩

/-- Embeds the `autofill`/`sign` step followed by submission: a throw
there lands in the catch block without submitting; otherwise the
transaction is signed, submitted and classified by `submitPhase`. -/
def buildSignSubmit (autofillThrow : Option String) (sr : SubmitResult)
    (db : DbState) (w : String) (a : ℚ) : SendOutcome :=
  match autofillThrow with
  | some errMsg => preSubmitCatch db w a errMsg
  | none => submitPhase sr db w a

/-- Embeds POST /api/testnet/payments/send (lines 1044–1194) with every
awaited pre-submission step fallible, exactly as in the source: the
required-fields and cap checks run before the try block; inside it,
`connect()` and the destination `account_lines` request may throw before
the destination-trust check is evaluated; when a distinct payout wallet
pays, the payer `account_lines` request may throw; then `autofill`/`sign`
may throw; every such throw reaches the same catch block
(`preSubmitCatch`), which inserts a Failure row and answers 500. Only when
all steps succeed is `submitAndWait` invoked. `sendPayment` is the
specialization of this model in which every pre-submission step succeeds
and the `account_lines` reads return the node's reported lines
(`sendPaymentFull_ok_eq`). -/
def sendPaymentFull (cfg : SendConfig) (ops : LedgerOps) (db : DbState)
    (w : String) (a : ℚ) : SendOutcome :=
  if w = "" ∨ a = 0 then
    ⟨400, missingFieldsMsg, false, db⟩
  else if cfg.maxPaymentPerTx > 0 ∧ a > cfg.maxPaymentPerTx then
    ⟨400, capMsg cfg.maxPaymentPerTx, false, db⟩
  else
    match ops.connect with
    | some errMsg => preSubmitCatch db w a errMsg
    | none =>
      match ops.destLines with
      | .error errMsg => preSubmitCatch db w a errMsg
      | .ok lines =>
        if hasTrust lines cfg.issuerAddress cfg.currency = true then
          if cfg.payoutAddress = cfg.issuerAddress then
            buildSignSubmit ops.autofill ops.submitRes db w a
          else
            match ops.payerLines with
            | .error errMsg => preSubmitCatch db w a errMsg
            | .ok plines =>
              match findIssuerLine plines cfg.issuerAddress cfg.currency with
              | none => ⟨400, payerNoTrustMsg cfg, false, db⟩
              | some line =>
                if line.balance < a then
                  ⟨400, insufficientBalanceMsg cfg line.balance, false, db⟩
                else
                  buildSignSubmit ops.autofill ops.submitRes db w a
        else
          ⟨400, noDestinationTrustMsg, false, db⟩

/-! ### Helper lemmas -/

/-- A payer-preflight rejection is a 400 that submits nothing and leaves
the database unchanged. -/
theorem payerRejection_some {cfg : SendConfig} {ledger : Ledger}
    {db : DbState} {amount : ℚ} {o : SendOutcome}
    (h : payerRejection cfg ledger db amount = some o) :
    o.status = 400 ∧ o.submitted = false ∧ o.db = db := by
  unfold payerRejection at h
  split at h
  · exact Option.noConfusion h
  · split at h
    · simp only [Option.some.injEq] at h
      subst h
      exact ⟨rfl, rfl, rfl⟩
    · split at h
      · simp only [Option.some.injEq] at h
        subst h
        exact ⟨rfl, rfl, rfl⟩
      · exact Option.noConfusion h

/-- The modelled INSERT appends at most one row, with exactly the supplied
column values, and never touches the employees table. -/
theorem insertTransaction_spec (db : DbState) (addr : String) (amount : ℚ)
    (status : String) (txId : Option String) :
    ∃ new : List TxRecord,
      insertTransaction db addr amount status txId =
        ⟨db.employees, db.transactions ++ new⟩ ∧
      new.length ≤ 1 ∧
      ∀ r ∈ new, r.wallet_address = addr ∧ r.amount = amount ∧
        r.status = status ∧ r.tx_id = txId := by
  unfold insertTransaction
  cases h : findEmployeeId db addr with
  | none => exact ⟨[], by simp, by simp, by simp⟩
  | some eid =>
      refine ⟨[⟨eid, amount, addr, status, txId⟩], rfl, by simp, ?_⟩
      intro r hr
      simp only [List.mem_singleton] at hr
      subst hr
      exact ⟨rfl, rfl, rfl, rfl⟩

theorem submitPhase_spec (sr : SubmitResult) (db : DbState) (w : String)
    (a : ℚ) :
    (submitPhase sr db w a).submitted = true ∧
    (submitPhase sr db w a).status ≠ 400 ∧
    ∃ new : List TxRecord,
      (submitPhase sr db w a).db = ⟨db.employees, db.transactions ++ new⟩ ∧
      new.length ≤ 1 ∧
      ∀ r ∈ new,
        (r.status = "Success" ∧ r.tx_id ≠ none) ∨
        (r.status = "Failure" ∧ r.tx_id = none) := by
  cases sr with
  | validated txResult hash =>
      simp only [submitPhase]
      split
      · obtain ⟨new, he, hl, hall⟩ :=
          insertTransaction_spec db w a "Success" (some hash)
        refine ⟨by simp, by simp, ⟨new, by simpa using he, hl, ?_⟩⟩
        intro r hr
        rcases hall r hr with ⟨-, -, hs, ht⟩
        exact Or.inl ⟨hs, by simp [ht]⟩
      · obtain ⟨new, he, hl, hall⟩ :=
          insertTransaction_spec db w a "Failure" none
        refine ⟨by simp, by simp, ⟨new, by simpa using he, hl, ?_⟩⟩
        intro r hr
        rcases hall r hr with ⟨-, -, hs, ht⟩
        exact Or.inr ⟨hs, ht⟩
  | thrown errMsg =>
      simp only [submitPhase]
      obtain ⟨new, he, hl, hall⟩ :=
        insertTransaction_spec db w a "Failure" none
      refine ⟨by simp, by simp, ⟨new, by simpa using he, hl, ?_⟩⟩
      intro r hr
      rcases hall r hr with ⟨-, -, hs, ht⟩
      exact Or.inr ⟨hs, ht⟩

theorem sendPayment_frame_or_submit (cfg : SendConfig) (ledger : Ledger)
    (sr : SubmitResult) (db : DbState) (w : String) (a : ℚ) :
    ((sendPayment cfg ledger sr db w a).status = 400 ∧
      (sendPayment cfg ledger sr db w a).submitted = false ∧
      (sendPayment cfg ledger sr db w a).db = db) ∨
    sendPayment cfg ledger sr db w a = submitPhase sr db w a := by
  unfold sendPayment
  by_cases h1 : w = "" ∨ a = 0
  · rw [if_pos h1]
    exact Or.inl ⟨rfl, rfl, rfl⟩
  · rw [if_neg h1]
    by_cases h2 : cfg.maxPaymentPerTx > 0 ∧ a > cfg.maxPaymentPerTx
    · rw [if_pos h2]
      exact Or.inl ⟨rfl, rfl, rfl⟩
    · rw [if_neg h2]
      unfold sendPaymentChecked
      by_cases h3 : hasTrust (ledger w) cfg.issuerAddress cfg.currency = true
      · rw [if_pos h3]
        rcases hp : payerRejection cfg ledger db a with _ | o
        · exact Or.inr rfl
        · exact Or.inl (payerRejection_some hp)
      · rw [if_neg h3]
        exact Or.inl ⟨rfl, rfl, rfl⟩

theorem sendPayment_records (cfg : SendConfig) (ledger : Ledger)
    (sr : SubmitResult) (db : DbState) (w : String) (a : ℚ) :
    ∃ new : List TxRecord,
      (sendPayment cfg ledger sr db w a).db =
        ⟨db.employees, db.transactions ++ new⟩ ∧
      new.length ≤ 1 ∧
      ∀ r ∈ new,
        (r.status = "Success" ∧ r.tx_id ≠ none) ∨
        (r.status = "Failure" ∧ r.tx_id = none) := by
  rcases sendPayment_frame_or_submit cfg ledger sr db w a with ⟨-, -, hdb⟩ | heq
  · exact ⟨[], by simp [hdb], by simp, by simp⟩
  · obtain ⟨-, -, new, he, hl, hall⟩ := submitPhase_spec sr db w a
    refine ⟨new, ?_, hl, hall⟩
    rw [heq]
    exact he

/-- When every pre-submission step succeeds and the `account_lines` reads
return the node's reported lines, the full model coincides with
`sendPayment`. -/
theorem sendPaymentFull_ok_eq (cfg : SendConfig) (ledger : Ledger)
    (sr : SubmitResult) (db : DbState) (w : String) (a : ℚ) :
    sendPaymentFull cfg
        ⟨none, .ok (ledger w), .ok (ledger cfg.payoutAddress), none, sr⟩
        db w a =
      sendPayment cfg ledger sr db w a := by
  unfold sendPaymentFull sendPayment
  dsimp only
  by_cases h1 : w = "" ∨ a = 0
  · rw [if_pos h1, if_pos h1]
  · rw [if_neg h1, if_neg h1]
    by_cases h2 : cfg.maxPaymentPerTx > 0 ∧ a > cfg.maxPaymentPerTx
    · rw [if_pos h2, if_pos h2]
    · rw [if_neg h2, if_neg h2]
      unfold sendPaymentChecked
      by_cases h3 : hasTrust (ledger w) cfg.issuerAddress cfg.currency = true
      · rw [if_pos h3, if_pos h3]
        unfold payerRejection
        by_cases h4 : cfg.payoutAddress = cfg.issuerAddress
        · rw [if_pos h4, if_pos h4]
          rfl
        · rw [if_neg h4, if_neg h4]
          cases h5 : findIssuerLine (ledger cfg.payoutAddress)
              cfg.issuerAddress cfg.currency with
          | none => rfl
          | some line =>
              dsimp only
              by_cases h6 : line.balance < a
              · rw [if_pos h6, if_pos h6]
              · rw [if_neg h6, if_neg h6]
                rfl
      · rw [if_neg h3, if_neg h3]

/-! ### Concrete fixtures used by witnesses and counterexamples -/

/-- A demo ledger: `rEmp` and `rGhost` hold trust lines to `rIss` for USD,
`rPayout` holds one with balance 500; every other account has no lines. -/
def demoLedger : Ledger := fun addr =>
  if addr = "rEmp" then [⟨"rIss", "USD", 0⟩]
  else if addr = "rGhost" then [⟨"rIss", "USD", 0⟩]
  else if addr = "rPayout" then [⟨"rIss", "USD", 500⟩]
  else []

/-- A database in which `rEmp` is employee 1. -/
def dbEmp : DbState := ⟨[⟨1, "rEmp"⟩], []⟩

/-- A database whose only employee has wallet `rOther`; in particular
`rGhost` is nobody's stored wallet address. -/
def dbGhost : DbState := ⟨[⟨2, "rOther"⟩], []⟩

/-- Configuration with no per-transaction cap and the issuer paying
directly (minting), so the payer-balance check is skipped. -/
def cfgNoCap : SendConfig := ⟨0, "USD", "rIss", "rIss"⟩

/-- Configuration with per-transaction cap 100, issuer paying. -/
def cfgCap100 : SendConfig := ⟨100, "USD", "rIss", "rIss"⟩

/-- Configuration with per-transaction cap 50, issuer paying. -/
def cfgCap50 : SendConfig := ⟨50, "USD", "rIss", "rIss"⟩

/-- Configuration with no cap and a distinct payout wallet `rPayout`, so
the payer trust/balance check runs. -/
def cfgPayout : SendConfig := ⟨0, "USD", "rIss", "rPayout"⟩

/-- Ledger-step results in which every pre-submission step succeeds, the
destination `account_lines` read reports no lines at all (so no trust line
to any issuer), and `submitAndWait` would throw if it were ever reached. -/
def opsNoTrust : LedgerOps :=
  ⟨none, .ok [], .ok [⟨"rIss", "USD", 500⟩], none, .thrown "boom"⟩

/-! ### C1 — order of the Preflight checks -/

/-- C1 counterexample: with cap 100 configured, a request for 200 to a
destination with no trust line is rejected with the cap message, not with
`NoDestinationTrust` — so the checks are not ordered destination-trust
first as the claim states, and an earlier-per-the-claim failing check does
not determine the rejection reason. -/
theorem C1_counterexample :
    hasTrust (demoLedger "rNowhere") "rIss" "USD" = false ∧
    (sendPayment cfgCap100 demoLedger (.thrown "network error") dbEmp
        "rNowhere" 200).message = capMsg 100 ∧
    capMsg 100 ≠ noDestinationTrustMsg := by
  refine ⟨by decide, by decide, by decide⟩

/-- C1 (amended): the Preflight checks of POST /payments/send run in the
order (1) per-transaction cap, (2) destination trust line to the issuer,
(3) payer trusted balance (skipped when the issuer itself pays),
short-circuiting on the first failing check with that check's reason and
without submitting. -/
theorem C1_check_order (cfg : SendConfig) (ledger : Ledger)
    (sr : SubmitResult) (db : DbState) (w : String) (a : ℚ)
    (hw : w ≠ "") (ha : a ≠ 0) :
    (cfg.maxPaymentPerTx > 0 ∧ a > cfg.maxPaymentPerTx →
      sendPayment cfg ledger sr db w a =
        ⟨400, capMsg cfg.maxPaymentPerTx, false, db⟩) ∧
    (¬(cfg.maxPaymentPerTx > 0 ∧ a > cfg.maxPaymentPerTx) →
      hasTrust (ledger w) cfg.issuerAddress cfg.currency = false →
      sendPayment cfg ledger sr db w a =
        ⟨400, noDestinationTrustMsg, false, db⟩) ∧
    (¬(cfg.maxPaymentPerTx > 0 ∧ a > cfg.maxPaymentPerTx) →
      hasTrust (ledger w) cfg.issuerAddress cfg.currency = true →
      ∀ o, payerRejection cfg ledger db a = some o →
        sendPayment cfg ledger sr db w a = o ∧
        o.status = 400 ∧ o.submitted = false ∧ o.db = db) := by
  have hmiss : ¬(w = "" ∨ a = 0) := not_or.mpr ⟨hw, ha⟩
  refine ⟨?_, ?_, ?_⟩
  · intro hcap
    unfold sendPayment
    rw [if_neg hmiss, if_pos hcap]
  · intro hcap htrust
    unfold sendPayment
    rw [if_neg hmiss, if_neg hcap]
    unfold sendPaymentChecked
    rw [if_neg (by simp [htrust])]
  · intro hcap htrust o hpo
    have h1 : sendPayment cfg ledger sr db w a = o := by
      unfold sendPayment
      rw [if_neg hmiss, if_neg hcap]
      unfold sendPaymentChecked
      rw [if_pos htrust, hpo]
    exact ⟨h1, payerRejection_some hpo⟩

/-- C1 witness: the cap conjunct of `C1_check_order` evaluated on a
concrete over-cap request. -/
theorem C1_check_order_witness :
    sendPayment cfgCap100 demoLedger (.thrown "network error") dbEmp
        "rEmp" 101 = ⟨400, capMsg 100, false, dbEmp⟩ :=
  (C1_check_order cfgCap100 demoLedger (.thrown "network error") dbEmp
      "rEmp" 101 (by decide) (by decide)).1 (by decide)

/-! ### C2 — no destination trust: rejection and no submission -/

/-- C2 counterexample: with cap 50 configured, a request for 60 to a
destination whose `account_lines` read succeeds and reports no lines (so
no trust line to the issuer) is rejected, but with the cap message rather
than the `NoDestinationTrust` rejection the claim promises for every such
request. -/
theorem C2_counterexample :
    hasTrust [] "rIss" "USD" = false ∧
    opsNoTrust.destLines = Except.ok [] ∧
    (sendPaymentFull cfgCap50 opsNoTrust dbEmp "rDest2" 60).message
      = capMsg 50 ∧
    capMsg 50 ≠ noDestinationTrustMsg := by
  refine ⟨by decide, rfl, by decide, by decide⟩

/-- C2 (amended): when the destination holds no trust line to the
configured issuer for the configured asset — whether the destination
`account_lines` read succeeds and reports no such line, or the request
fails before the trust check (connect failure, `actNotFound` for an
unactivated destination) — `submitAndWait` is never invoked: no
transaction is built, signed or submitted. Whenever the request also
passes the required-fields and cap checks and the pre-submission reads
succeed, the rejection returned is the `NoDestinationTrust` one
(otherwise the catch-all answers 500, still without submitting). -/
theorem C2_no_trust_no_submit (cfg : SendConfig) (ops : LedgerOps)
    (db : DbState) (w : String) (a : ℚ)
    (htrust : ∀ lines, ops.destLines = Except.ok lines →
      hasTrust lines cfg.issuerAddress cfg.currency = false) :
    (sendPaymentFull cfg ops db w a).submitted = false ∧
    (w ≠ "" → a ≠ 0 → ¬(cfg.maxPaymentPerTx > 0 ∧ a > cfg.maxPaymentPerTx) →
      ops.connect = none →
      ∀ lines, ops.destLines = Except.ok lines →
      sendPaymentFull cfg ops db w a =
        ⟨400, noDestinationTrustMsg, false, db⟩) := by
  constructor
  · unfold sendPaymentFull
    by_cases h1 : w = "" ∨ a = 0
    · rw [if_pos h1]
    · rw [if_neg h1]
      by_cases h2 : cfg.maxPaymentPerTx > 0 ∧ a > cfg.maxPaymentPerTx
      · rw [if_pos h2]
      · rw [if_neg h2]
        cases hc : ops.connect with
        | some errMsg => rfl
        | none =>
            cases hd : ops.destLines with
            | error errMsg => rfl
            | ok lines =>
                dsimp only
                rw [if_neg (by simp [htrust lines hd])]
  · intro hw ha hcap hc lines hd
    unfold sendPaymentFull
    rw [if_neg (not_or.mpr ⟨hw, ha⟩), if_neg hcap, hc, hd]
    dsimp only
    rw [if_neg (by simp [htrust lines hd])]

/-- C2 witness: a concrete destination whose `account_lines` read reports
no trust line is rejected with the `NoDestinationTrust` message and
nothing is submitted. -/
theorem C2_no_trust_no_submit_witness :
    sendPaymentFull cfgNoCap opsNoTrust dbEmp "rDest2" 20 =
      ⟨400, noDestinationTrustMsg, false, dbEmp⟩ :=
  (C2_no_trust_no_submit cfgNoCap opsNoTrust dbEmp "rDest2" 20
      (fun lines hd => by
        simp only [opsNoTrust, Except.ok.injEq] at hd
        subst hd
        decide)).2
    (by decide) (by decide) (by decide) rfl [] rfl

/-! ### C9 — per-transaction cap semantics -/

/-- C9: with a cap C > 0 configured, an amount strictly above C is
rejected with the cap message, without submission and without touching the
database; an amount exactly C passes the cap check (the request proceeds
to the remaining pipeline unchanged); with no cap configured
(`MAX_PAYMENT_PER_TX` unset, parsed as 0) the cap check rejects nothing. -/
theorem C9_cap_semantics (cfg : SendConfig) (ledger : Ledger)
    (sr : SubmitResult) (db : DbState) (w : String) (a : ℚ)
    (hw : w ≠ "") (ha : a ≠ 0) :
    (cfg.maxPaymentPerTx > 0 → a > cfg.maxPaymentPerTx →
      sendPayment cfg ledger sr db w a =
        ⟨400, capMsg cfg.maxPaymentPerTx, false, db⟩) ∧
    (cfg.maxPaymentPerTx > 0 → a = cfg.maxPaymentPerTx →
      sendPayment cfg ledger sr db w a =
        sendPaymentChecked cfg ledger sr db w a) ∧
    (cfg.maxPaymentPerTx = 0 →
      sendPayment cfg ledger sr db w a =
        sendPaymentChecked cfg ledger sr db w a) := by
  have hmiss : ¬(w = "" ∨ a = 0) := not_or.mpr ⟨hw, ha⟩
  refine ⟨?_, ?_, ?_⟩
  · intro hpos hgt
    unfold sendPayment
    rw [if_neg hmiss, if_pos ⟨hpos, hgt⟩]
  · intro hpos heq
    unfold sendPayment
    rw [if_neg hmiss, if_neg (by rw [heq]; exact fun h => lt_irrefl _ h.2)]
  · intro hzero
    unfold sendPayment
    rw [if_neg hmiss, if_neg (by rw [hzero]; exact fun h => lt_irrefl _ h.1)]

/-- C9 witness: cap 100, amount 150 is rejected with the cap message;
amount exactly 100 passes the cap check; with no cap, amount 150 passes
the cap check. -/
theorem C9_cap_semantics_witness :
    sendPayment cfgCap100 demoLedger (.thrown "e9") dbEmp "rEmp" 150 =
      ⟨400, capMsg 100, false, dbEmp⟩ ∧
    sendPayment cfgCap100 demoLedger (.thrown "e9") dbEmp "rEmp" 100 =
      sendPaymentChecked cfgCap100 demoLedger (.thrown "e9") dbEmp
        "rEmp" 100 ∧
    sendPayment cfgNoCap demoLedger (.thrown "e9") dbEmp "rEmp" 150 =
      sendPaymentChecked cfgNoCap demoLedger (.thrown "e9") dbEmp
        "rEmp" 150 :=
  ⟨(C9_cap_semantics cfgCap100 demoLedger (.thrown "e9") dbEmp "rEmp" 150
      (by decide) (by decide)).1 (by decide) (by decide),
   (C9_cap_semantics cfgCap100 demoLedger (.thrown "e9") dbEmp "rEmp" 100
      (by decide) (by decide)).2.1 (by decide) (by decide),
   (C9_cap_semantics cfgNoCap demoLedger (.thrown "e9") dbEmp "rEmp" 150
      (by decide) (by decide)).2.2 (by decide)⟩

/-! ### More helper lemmas for the submission path -/

/-- When the required fields are present and all three Preflight checks
pass, POST /payments/send reaches the submission phase unchanged. -/
theorem sendPayment_reaches_submit (cfg : SendConfig) (ledger : Ledger)
    (sr : SubmitResult) (db : DbState) (w : String) (a : ℚ)
    (hw : w ≠ "") (ha : a ≠ 0)
    (hcap : ¬(cfg.maxPaymentPerTx > 0 ∧ a > cfg.maxPaymentPerTx))
    (htrust : hasTrust (ledger w) cfg.issuerAddress cfg.currency = true)
    (hpay : payerRejection cfg ledger db a = none) :
    sendPayment cfg ledger sr db w a = submitPhase sr db w a := by
  unfold sendPayment
  rw [if_neg (not_or.mpr ⟨hw, ha⟩), if_neg hcap]
  unfold sendPaymentChecked
  rw [if_pos htrust, hpay]

/-- When the destination is a stored employee wallet, the modelled INSERT
appends exactly the supplied row. -/
theorem insertTransaction_found {db : DbState} {w : String} {eid : Nat}
    (hemp : findEmployeeId db w = some eid) (a : ℚ) (st : String)
    (txId : Option String) :
    insertTransaction db w a st txId =
      ⟨db.employees, db.transactions ++ [⟨eid, a, w, st, txId⟩]⟩ := by
  unfold insertTransaction
  rw [hemp]

/-! ### C3 — establishTrust idempotence -/

/-- C3 counterexample: even against a ledger already reporting a
sufficient trust line (the predicate POST /payments/send itself uses),
two successive POST /trustlines/create calls submit two TrustSet
transactions, not one — the route has no existence check. -/
theorem C3_counterexample :
    hasTrust [⟨"rIss", "USD", 120⟩] "rIss" "USD" = true ∧
    trustSubmissions
        (createTrustline "sEmployeeSeed" "rIss" (.validated "tesSUCCESS" "HT1")) +
      trustSubmissions
        (createTrustline "sEmployeeSeed" "rIss" (.validated "tesSUCCESS" "HT2")) ≠ 1 ∧
    trustSubmissions
        (createTrustline "sEmployeeSeed" "rIss" (.validated "tesSUCCESS" "HT1")) +
      trustSubmissions
        (createTrustline "sEmployeeSeed" "rIss" (.validated "tesSUCCESS" "HT2")) = 2 := by
  refine ⟨by decide, by decide, by decide⟩

/-- C3 (amended): POST /trustlines/create submits exactly one TrustSet
transaction on every call with the required fields present, regardless of
any existing trust line, so two successive calls submit two transactions
in total. -/
theorem C3_always_submits (seed issuer : String) (sr₁ sr₂ : SubmitResult)
    (hs : seed ≠ "") (hi : issuer ≠ "") :
    trustSubmissions (createTrustline seed issuer sr₁) = 1 ∧
    trustSubmissions (createTrustline seed issuer sr₁) +
      trustSubmissions (createTrustline seed issuer sr₂) = 2 := by
  have hsub : ∀ sr : SubmitResult,
      (createTrustline seed issuer sr).submitted = true := by
    intro sr
    cases sr with
    | validated txResult hash =>
        simp only [createTrustline]
        rw [if_neg (not_or.mpr ⟨hs, hi⟩)]
        split <;> rfl
    | thrown errMsg =>
        simp only [createTrustline]
        rw [if_neg (not_or.mpr ⟨hs, hi⟩)]
  have hone : ∀ sr : SubmitResult,
      trustSubmissions (createTrustline seed issuer sr) = 1 := by
    intro sr
    unfold trustSubmissions
    rw [hsub sr]
    rfl
  rw [hone sr₁, hone sr₂]
  exact ⟨rfl, rfl⟩

/-- C3 witness: two concrete calls (one validated success, one thrown
error) each submit, totalling two submissions. -/
theorem C3_always_submits_witness :
    trustSubmissions
        (createTrustline "sSeedW" "rIssW" (.validated "tesSUCCESS" "HW")) = 1 ∧
    trustSubmissions
        (createTrustline "sSeedW" "rIssW" (.validated "tesSUCCESS" "HW")) +
      trustSubmissions (createTrustline "sSeedW" "rIssW" (.thrown "tw")) = 2 :=
  C3_always_submits "sSeedW" "rIssW" (.validated "tesSUCCESS" "HW")
    (.thrown "tw") (by decide) (by decide)

/-! ### C4 — records are created terminal, no Pending state -/

/-- C4 counterexample: a concrete successful payment creates its record
directly with status Success — there is no Pending creation followed by a
finalize, and the schema's CHECK constraint does not even admit a Pending
status. -/
theorem C4_counterexample :
    (sendPayment cfgNoCap demoLedger (.validated "tesSUCCESS" "HASH4")
        dbEmp "rEmp" 25).db.transactions =
      [⟨1, 25, "rEmp", "Success", some "HASH4"⟩] ∧
    "Success" ≠ "Pending" ∧
    statusAllowed "Pending" = false := by
  refine ⟨by decide, by decide, by decide⟩

/-- C4 (amended): every TransactionRecord is created by a single INSERT
directly in a terminal status admitted by the schema's CHECK constraint
(Success or Failure), never in a Pending status, and existing records are
never mutated (the table only grows by appending). -/
theorem C4_terminal_at_creation (cfg : SendConfig) (ledger : Ledger)
    (sr : SubmitResult) (db : DbState) (w : String) (a : ℚ) :
    ∃ new : List TxRecord,
      (sendPayment cfg ledger sr db w a).db =
        ⟨db.employees, db.transactions ++ new⟩ ∧
      new.length ≤ 1 ∧
      ∀ r ∈ new, statusAllowed r.status = true ∧ r.status ≠ "Pending" := by
  obtain ⟨new, he, hl, hall⟩ := sendPayment_records cfg ledger sr db w a
  refine ⟨new, he, hl, ?_⟩
  intro r hr
  rcases hall r hr with ⟨hs, -⟩ | ⟨hs, -⟩ <;>
    · rw [hs]
      exact ⟨by decide, by decide⟩

/-! ### C5 — exactly one Success record per successful payment -/

/-- C5 counterexample: a payment to `rGhost` (which holds a trust line but
is not any employee's stored wallet address) validates `tesSUCCESS` and is
reported as success, yet zero TransactionRecords are written — refuting
"for every successful payment, exactly one Success record is written". -/
theorem C5_counterexample :
    (sendPayment cfgNoCap demoLedger (.validated "tesSUCCESS" "HASH5")
        dbGhost "rGhost" 30).status = 200 ∧
    (sendPayment cfgNoCap demoLedger (.validated "tesSUCCESS" "HASH5")
        dbGhost "rGhost" 30).submitted = true ∧
    (sendPayment cfgNoCap demoLedger (.validated "tesSUCCESS" "HASH5")
        dbGhost "rGhost" 30).db.transactions = [] ∧
    findEmployeeId dbGhost "rGhost" = none := by
  refine ⟨by decide, by decide, by decide, by decide⟩

/-- C5 (amended): for every payment that passes Preflight, validates
`tesSUCCESS`, and whose destination is a stored employee wallet address,
exactly one Success TransactionRecord is appended, carrying the signed
transaction's hash; and Success rows never lack a hash: any database in
which every Success row has a non-null `tx_id` still satisfies that
invariant after any POST /payments/send call. -/
theorem C5_success_exactly_one (cfg : SendConfig) (ledger : Ledger)
    (db : DbState) (w : String) (a : ℚ) (eid : Nat) (hash : String)
    (hw : w ≠ "") (ha : a ≠ 0)
    (hcap : ¬(cfg.maxPaymentPerTx > 0 ∧ a > cfg.maxPaymentPerTx))
    (htrust : hasTrust (ledger w) cfg.issuerAddress cfg.currency = true)
    (hpay : payerRejection cfg ledger db a = none)
    (hemp : findEmployeeId db w = some eid) :
    sendPayment cfg ledger (.validated "tesSUCCESS" hash) db w a =
      ⟨200, successMsg a w, true,
        ⟨db.employees,
          db.transactions ++ [⟨eid, a, w, "Success", some hash⟩]⟩⟩ ∧
    ∀ (sr : SubmitResult) (r : TxRecord),
      (∀ t ∈ db.transactions, t.status = "Success" → t.tx_id ≠ none) →
      r ∈ (sendPayment cfg ledger sr db w a).db.transactions →
      r.status = "Success" → r.tx_id ≠ none := by
  constructor
  · rw [sendPayment_reaches_submit cfg ledger _ db w a hw ha hcap htrust hpay]
    have hred : submitPhase (.validated "tesSUCCESS" hash) db w a =
        ⟨200, successMsg a w, true,
          insertTransaction db w a "Success" (some hash)⟩ := rfl
    rw [hred, insertTransaction_found hemp]
  · intro sr r hinv hr hs
    obtain ⟨new, he, -, hall⟩ := sendPayment_records cfg ledger sr db w a
    rw [he] at hr
    rcases List.mem_append.mp hr with hold | hnew
    · exact hinv r hold hs
    · rcases hall r hnew with ⟨-, ht⟩ | ⟨hf, -⟩
      · exact ht
      · rw [hf] at hs
        exact absurd hs (by decide)

/-- C5 witness: a concrete in-database employee paid 26 with a validated
`tesSUCCESS` gets exactly one appended Success row carrying the hash. -/
theorem C5_success_exactly_one_witness :
    sendPayment cfgNoCap demoLedger (.validated "tesSUCCESS" "HW5")
        dbEmp "rEmp" 26 =
      ⟨200, successMsg 26 "rEmp", true,
        ⟨dbEmp.employees,
          dbEmp.transactions ++ [⟨1, 26, "rEmp", "Success", some "HW5"⟩]⟩⟩ :=
  (C5_success_exactly_one cfgNoCap demoLedger dbEmp "rEmp" 26 1 "HW5"
      (by decide) (by decide) (by decide) (by decide) (by decide)
      (by decide)).1

/-! ### C6 — Failure record and verbatim code for ledger-reported failures -/

/-- C6 counterexample: a submitted payment to `rGhost` that the ledger
reports as `tecPATH_DRY` produces zero Failure records, because the
success- and failure-path INSERTs both derive `employee_id` from the
employees table and `rGhost` is not a stored wallet address — refuting
"exactly one Failure record is written" for every submitted-then-failed
payment. -/
theorem C6_counterexample :
    (sendPayment cfgNoCap demoLedger (.validated "tecPATH_DRY" "HASH6")
        dbGhost "rGhost" 40).status = 500 ∧
    (sendPayment cfgNoCap demoLedger (.validated "tecPATH_DRY" "HASH6")
        dbGhost "rGhost" 40).submitted = true ∧
    (sendPayment cfgNoCap demoLedger (.validated "tecPATH_DRY" "HASH6")
        dbGhost "rGhost" 40).db.transactions = [] := by
  refine ⟨by decide, by decide, by decide⟩

/-- C6 (amended): for every payment that passes Preflight, is submitted,
and is validated with a non-success code, when the destination is a stored
employee wallet address exactly one Failure TransactionRecord (null hash)
is appended and the reported code appears verbatim inside the 500 error
message returned to the caller. -/
theorem C6_failure_recorded (cfg : SendConfig) (ledger : Ledger)
    (db : DbState) (w : String) (a : ℚ) (eid : Nat) (code hash : String)
    (hw : w ≠ "") (ha : a ≠ 0)
    (hcap : ¬(cfg.maxPaymentPerTx > 0 ∧ a > cfg.maxPaymentPerTx))
    (htrust : hasTrust (ledger w) cfg.issuerAddress cfg.currency = true)
    (hpay : payerRejection cfg ledger db a = none)
    (hemp : findEmployeeId db w = some eid)
    (hcode : code ≠ "tesSUCCESS") :
    sendPayment cfg ledger (.validated code hash) db w a =
      ⟨500, txFailedMsg code, true,
        ⟨db.employees,
          db.transactions ++ [⟨eid, a, w, "Failure", none⟩]⟩⟩ ∧
    ∃ pre post : String, txFailedMsg code = pre ++ code ++ post := by
  constructor
  · rw [sendPayment_reaches_submit cfg ledger _ db w a hw ha hcap htrust hpay]
    simp only [submitPhase]
    rw [if_neg hcode, insertTransaction_found hemp]
  · exact ⟨"Transaction failed: ", "", by simp [txFailedMsg]⟩

/-- C6 witness: a concrete `tecPATH_DRY` outcome for employee `rEmp`
appends one Failure row and surfaces the code in the message. -/
theorem C6_failure_recorded_witness :
    sendPayment cfgNoCap demoLedger (.validated "tecPATH_DRY" "HW6")
        dbEmp "rEmp" 27 =
      ⟨500, txFailedMsg "tecPATH_DRY", true,
        ⟨dbEmp.employees,
          dbEmp.transactions ++ [⟨1, 27, "rEmp", "Failure", none⟩]⟩⟩ :=
  (C6_failure_recorded cfgNoCap demoLedger dbEmp "rEmp" 27 1 "tecPATH_DRY"
      "HW6" (by decide) (by decide) (by decide) (by decide) (by decide)
      (by decide) (by decide)).1

/-! ### C7 — rejected requests leave no trace -/

/-- C7: every POST /payments/send request answered with a 400 rejection
(missing fields, cap exceeded, no destination trust, payer without trust
line, insufficient payer balance) is returned without invoking
`submitAndWait` and with the database — in particular the transactions
table — left exactly as it was: zero TransactionRecords are created. -/
theorem C7_rejection_frame (cfg : SendConfig) (ledger : Ledger)
    (sr : SubmitResult) (db : DbState) (w : String) (a : ℚ)
    (h : (sendPayment cfg ledger sr db w a).status = 400) :
    (sendPayment cfg ledger sr db w a).submitted = false ∧
    (sendPayment cfg ledger sr db w a).db = db := by
  rcases sendPayment_frame_or_submit cfg ledger sr db w a with ⟨-, h2, h3⟩ | heq
  · exact ⟨h2, h3⟩
  · rw [heq] at h
    exact absurd h (submitPhase_spec sr db w a).2.1

/-- C7 witness: a concrete cap rejection submits nothing and leaves the
database untouched. -/
theorem C7_rejection_frame_witness :
    (sendPayment cfgCap100 demoLedger (.thrown "e7") dbEmp "rEmp" 150).submitted
        = false ∧
    (sendPayment cfgCap100 demoLedger (.thrown "e7") dbEmp "rEmp" 150).db
        = dbEmp :=
  C7_rejection_frame cfgCap100 demoLedger (.thrown "e7") dbEmp "rEmp" 150
    (by decide)

/-! ### C8 — expiry without validated result -/

/-- C8 counterexample: a submission that obtains no validated result
before its `LastLedgerSequence` expiry (xrpl.js throws) is recorded as a
Failure row and reported to the caller as a 500 error — not classified as
a distinct `Unresolved{hash}` state as the claim states. -/
theorem C8_counterexample :
    sendPayment cfgNoCap demoLedger
        (.thrown
          "The latest ledger sequence has passed the LastLedgerSequence")
        dbEmp "rEmp" 15 =
      ⟨500,
        "The latest ledger sequence has passed the LastLedgerSequence",
        true, ⟨[⟨1, "rEmp"⟩], [⟨1, 15, "rEmp", "Failure", none⟩]⟩⟩ := by
  decide

/-- C8 (amended): when `submitAndWait` throws — including when no
validated result arrives before the transaction's expiry — the catch-all
of POST /payments/send records the attempt as a Failure row with a null
hash (when the destination is a stored employee wallet) and answers 500
with the thrown error message; there is no distinct Unresolved terminal
state, and reconciliation by hash is not offered. -/
theorem C8_expiry_recorded_failure (cfg : SendConfig) (ledger : Ledger)
    (db : DbState) (w : String) (a : ℚ) (eid : Nat) (msg : String)
    (hw : w ≠ "") (ha : a ≠ 0)
    (hcap : ¬(cfg.maxPaymentPerTx > 0 ∧ a > cfg.maxPaymentPerTx))
    (htrust : hasTrust (ledger w) cfg.issuerAddress cfg.currency = true)
    (hpay : payerRejection cfg ledger db a = none)
    (hemp : findEmployeeId db w = some eid) :
    sendPayment cfg ledger (.thrown msg) db w a =
      ⟨500, msg, true,
        ⟨db.employees, db.transactions ++ [⟨eid, a, w, "Failure", none⟩]⟩⟩ := by
  rw [sendPayment_reaches_submit cfg ledger _ db w a hw ha hcap htrust hpay]
  simp only [submitPhase]
  rw [insertTransaction_found hemp]

/-- C8 witness: a concrete timeout-style throw for employee `rEmp` is
stored and reported as Failure. -/
theorem C8_expiry_recorded_failure_witness :
    sendPayment cfgNoCap demoLedger (.thrown "Timeout") dbEmp "rEmp" 16 =
      ⟨500, "Timeout", true,
        ⟨dbEmp.employees,
          dbEmp.transactions ++ [⟨1, 16, "rEmp", "Failure", none⟩]⟩⟩ :=
  C8_expiry_recorded_failure cfgNoCap demoLedger dbEmp "rEmp" 16 1 "Timeout"
    (by decide) (by decide) (by decide) (by decide) (by decide) (by decide)

/-! ### C10 — success reported, nothing persisted -/

/-- C10: concrete run exhibiting the claimed bug. The destination
`rGhost` holds a trust line and the payment validates `tesSUCCESS`, so the
caller receives a 200 success response — yet `rGhost` is not the stored
`wallet_address` of any employee, the INSERT's employees subquery yields
NULL, the NOT NULL constraint on `employee_id` rejects the row, the error
is only logged, and zero TransactionRecords are persisted. -/
theorem C10_success_unrecorded :
    sendPayment cfgNoCap demoLedger (.validated "tesSUCCESS" "HASH10")
        dbGhost "rGhost" 55 =
      ⟨200, successMsg 55 "rGhost", true, dbGhost⟩ ∧
    findEmployeeId dbGhost "rGhost" = none ∧
    dbGhost.employees ≠ [] ∧
    dbGhost.transactions = [] := by
  refine ⟨by decide, by decide, by decide, by decide⟩
